import Mathlib

/-!
Shallow embedding of the amp.dev deployment task file
(`gulpfile.js/deploy.js`) and of the code-preview template fragment
(`frontend/templates/views/partials/code-preview/code-preview.j2`),
with theorems checking the design-level specification against them.

Modelling conventions:
* Shell invocations (`sh`) are not executed; each task returns the list
  of commands it issues, as structured `Cmd` values carrying exactly the
  interpolated parts of the source's template literals, plus an optional
  error.  The environment (`Env`) supplies the outcome of each external
  command: the registry's tag list (the output of
  `gcloud container images list-tags`, modelled from the spec since
  `@lib/utils/sh.js` is outside the excerpt) and each command's exit
  status.
* JavaScript `a || b` on strings (falsy empty string) is `jsOr`.
* JavaScript number-to-string coercion of the integer timestamp is
  `jsNumToString` (decimal rendering).
* The module-level `config` object is `mkConfig`, a function of the
  commandline overrides (`--tag`, `--project`), the git version string,
  the timestamp and the repository root; the reserved words `prefix`
  and `instance` of the source become fields `pfx` and `inst`.
-/

/-- Decimal digit characters, fuel-indexed so the kernel can evaluate it.
`toDecimalAux (n+1) n` renders `n` in base 10, most significant first. -/
def toDecimalAux : Nat → Nat → List Char
  | 0, _ => []
  | fuel + 1, n =>
    if n < 10 then [Nat.digitChar n]
    else toDecimalAux fuel (n / 10) ++ [Nat.digitChar (n % 10)]

/-- Decimal rendering of a natural number as a character list. -/
def toDecimal (n : Nat) : List Char :=
  toDecimalAux (n + 1) n

/-- JavaScript coercion of a nonnegative integer to a string
(template-literal interpolation of `Date.now()`): decimal rendering. -/
def jsNumToString (n : Nat) : String :=
  (toDecimal n).asString

/-- JavaScript `v || fallback` on an optional string: `undefined` and the
empty string are falsy and select the fallback. -/
def jsOr (v : Option String) (fallback : String) : String :=
  match v with
  | some s => if s = "" then fallback else s
  | none => fallback

/-- `const PREFIX = 'amp-dev'` (renamed: `prefix` is reserved in Lean). -/
def PFX : String := "amp-dev"

/-- `const PACKAGER_PREFIX = PREFIX + '-packager'`. -/
def PACKAGER_PFX : String := PFX ++ "-packager"

/-- Default Google Cloud project id (`argv.project` fallback). -/
def DEFAULT_PROJECT_ID : String := "amp-dev-230314"

/-- `const DEFAULT_REGION = 'us-east1'`. -/
def DEFAULT_REGION : String := "us-east1"

/-- `const DEFAULT_ZONE = 'us-east1-c'`. -/
def DEFAULT_ZONE : String := "us-east1-c"

/-- `const TAG = argv.tag || version-TIMESTAMP` (line 36 of deploy.js). -/
def mkTag (tagArg : Option String) (gitVersion : String) (timestamp : Nat) : String :=
  jsOr tagArg (gitVersion ++ "-" ++ jsNumToString timestamp)

/-- `const PROJECT_ID = argv.project || 'amp-dev-230314'`. -/
def mkProjectId (projectArg : Option String) : String :=
  jsOr projectArg DEFAULT_PROJECT_ID

/-- One entry of `config.instance.groups`: name and zone of a managed
instance group. -/
structure InstanceGroup where
  name : String
  zone : String
deriving DecidableEq

/-- `config.instance` (respectively `config.packager.instance`): groups,
template name, count and machine type. -/
structure InstanceConfig where
  groups : List InstanceGroup
  template : String
  count : Nat
  machine : String
deriving DecidableEq

/-- `config.gcloud`. -/
structure GcloudConfig where
  project : String
  region : String
  zone : String
deriving DecidableEq

/-- `config.image` (respectively `config.packager.image`). -/
structure ImageConfig where
  name : String
  current : String
deriving DecidableEq

/-- `config.packager.opts`, the options object passed to `sh` for
packager commands (working directory `join(ROOT, 'packager')`). -/
structure PackagerOpts where
  workingDir : String
deriving DecidableEq

/-- `config.packager`. -/
structure PackagerConfig where
  opts : PackagerOpts
  pfx : String
  tag : String
  inst : InstanceConfig
  image : ImageConfig
deriving DecidableEq

/-- The module-level `config` object of deploy.js. -/
structure Config where
  pfx : String
  tag : String
  inst : InstanceConfig
  gcloud : GcloudConfig
  image : ImageConfig
  packager : PackagerConfig
deriving DecidableEq

/-- The `config` object as built at lines 48-97 of deploy.js from the
commandline overrides, the git version, the timestamp and the
repository root. -/
def mkConfig (tagArg projectArg : Option String) (gitVersion : String)
    (timestamp : Nat) (root : String) : Config :=
  let tag := mkTag tagArg gitVersion timestamp
  let projectId := mkProjectId projectArg
  { pfx := PFX
    tag := tag
    inst :=
      { groups :=
          [{ name := "ig-" ++ PFX ++ "-europe", zone := "europe-west2-c" },
           { name := "ig-" ++ PFX ++ "-zone2", zone := "us-east1-b" }]
        template := "it-" ++ PFX ++ "-" ++ tag
        count := 2
        machine := "n1-standard-2" }
    gcloud :=
      { project := projectId
        region := DEFAULT_REGION
        zone := DEFAULT_ZONE }
    image :=
      { name := "gcr.io/" ++ projectId ++ "/" ++ PFX
        current := "gcr.io/" ++ projectId ++ "/" ++ PFX ++ ":" ++ tag }
    packager :=
      { opts := { workingDir := root ++ "/packager" }
        pfx := PACKAGER_PFX
        tag := tag
        inst :=
          { groups := [{ name := "ig-" ++ PACKAGER_PFX, zone := "us-east1-b" }]
            template := "it-" ++ PACKAGER_PFX ++ "-" ++ tag
            count := 1
            machine := "n1-standard-1" }
        image :=
          { name := "gcr.io/" ++ projectId ++ "/" ++ PACKAGER_PFX
            current := "gcr.io/" ++ projectId ++ "/" ++ PACKAGER_PFX ++ ":" ++ tag } } }

/-- The external commands deploy.js issues through `sh`, as structured
values; each constructor mirrors one template literal of the source,
its fields being exactly the interpolated parts (plus, where the source
passes `config.packager.opts`, the working directory). -/
inductive Cmd where
  | listTags (imageName : String)
  | buildsSubmit (imageTag : String) (workingDir : Option String)
  | templateCreate (template : String) (containerImage : String)
      (machine : String) (netTags : Option String) (scopes : Option String)
      (workingDir : Option String)
  | rollingStartUpdate (groupName : String) (template : String) (zone : String)
      (minReady : String) (workingDir : Option String)
  | describeGroup (groupName : String) (zone : String)
  | rollingStopUpdate (target : String)
  | dockerBuild (imageTag : String)
  | dockerRun (imageTag : String)
  | authConfigureDocker
  | configSet (key : String) (value : String)
deriving DecidableEq

/-- Which instance group a command addresses, if any. -/
def Cmd.groupArg : Cmd → Option String
  | .rollingStartUpdate g _ _ _ _ => some g
  | .describeGroup g _ => some g
  | _ => none

/-- The `--zone` argument of a command, if any. -/
def Cmd.zoneArg : Cmd → Option String
  | .rollingStartUpdate _ _ z _ _ => some z
  | .describeGroup _ z => some z
  | _ => none

/-- The `--version template=` argument of a command, if any. -/
def Cmd.templateArg : Cmd → Option String
  | .rollingStartUpdate _ t _ _ _ => some t
  | _ => none

/-- Errors a task can raise: the explicit tag-collision `Error` thrown
by `verifyTag`, or the generic rejection of a failing `sh` command. -/
inductive DeployError where
  | tagCollision (tag : String)
  | commandFailure (cmd : Cmd)
deriving DecidableEq

/-- Outcomes supplied by the outside world: the tag list returned by the
registry query (modelled from the spec: the `sh` helper is outside the
excerpt, the spec says the pipeline queries the registry's existing tag
list) and the exit status of each external command. -/
structure Env where
  registryTags : List String
  shOk : Cmd → Bool

/-- Result of running one task: the commands it issued in order, the
error it raised (if any), and the configuration as left behind. -/
structure StepResult where
  cmds : List Cmd
  err : Option DeployError
  cfg : Config
deriving DecidableEq

/-- A task that issues a single `sh` command and propagates its failure
(the `return sh(...)` pattern of deploy.js). -/
def shStep (c : Cmd) (cfg : Config) (env : Env) : StepResult :=
  { cmds := [c]
    err := if env.shOk c then none else some (.commandFailure c)
    cfg := cfg }

/-- `verifyTag` (deploy.js lines 102-109): query the registry tag list
for `config.image.name`; throw the explicit collision error when it
contains `config.tag`. -/
def verifyTag (cfg : Config) (env : Env) : StepResult :=
  let c := Cmd.listTags cfg.image.name
  if env.shOk c = false then
    { cmds := [c], err := some (.commandFailure c), cfg := cfg }
  else if env.registryTags.contains cfg.tag then
    { cmds := [c], err := some (.tagCollision cfg.tag), cfg := cfg }
  else
    { cmds := [c], err := none, cfg := cfg }

/-- `gcloudSetup`: three sequential `sh` awaits, stopping at the first
failure. -/
def gcloudSetup (cfg : Config) (env : Env) : StepResult :=
  let c1 := Cmd.authConfigureDocker
  if env.shOk c1 = false then
    { cmds := [c1], err := some (.commandFailure c1), cfg := cfg }
  else
    let c2 := Cmd.configSet "compute/region" cfg.gcloud.region
    if env.shOk c2 = false then
      { cmds := [c1, c2], err := some (.commandFailure c2), cfg := cfg }
    else
      let c3 := Cmd.configSet "compute/zone" cfg.gcloud.zone
      { cmds := [c1, c2, c3]
        err := if env.shOk c3 then none else some (.commandFailure c3)
        cfg := cfg }

/-- `imageBuild`: `docker build --tag config.image.current .`. -/
def imageBuild (cfg : Config) (env : Env) : StepResult :=
  shStep (Cmd.dockerBuild cfg.image.current) cfg env

/-- `imageRunLocal`: `docker run -d -p 8082:80 config.image.current`. -/
def imageRunLocal (cfg : Config) (env : Env) : StepResult :=
  shStep (Cmd.dockerRun cfg.image.current) cfg env

/-- `imageUpload`: `gcloud builds submit --tag config.image.current .`. -/
def imageUpload (cfg : Config) (env : Env) : StepResult :=
  shStep (Cmd.buildsSubmit cfg.image.current none) cfg env

/-- `imageList`: `gcloud container images list-tags config.image.name`. -/
def imageList (cfg : Config) (env : Env) : StepResult :=
  shStep (Cmd.listTags cfg.image.name) cfg env

/-- `instanceTemplateCreate` (deploy.js lines 148-154). -/
def instanceTemplateCreate (cfg : Config) (env : Env) : StepResult :=
  shStep
    (Cmd.templateCreate cfg.inst.template cfg.image.current cfg.inst.machine
      (some "http-server,https-server") (some "default,datastore") none)
    cfg env

/-- `updateStart` (deploy.js lines 161-179): one rolling-update command
per entry of `config.instance.groups`, issued through `Promise.all`;
the first failing command's rejection propagates. -/
def updateStart (cfg : Config) (env : Env) : StepResult :=
  let cs := cfg.inst.groups.map fun g =>
    Cmd.rollingStartUpdate g.name cfg.inst.template g.zone "4m" none
  { cmds := cs
    err := (cs.find? fun c => !env.shOk c).map .commandFailure
    cfg := cfg }

/-- `updateStatus`: one describe command per configured group. -/
def updateStatus (cfg : Config) (env : Env) : StepResult :=
  let cs := cfg.inst.groups.map fun g => Cmd.describeGroup g.name g.zone
  { cmds := cs
    err := (cs.find? fun c => !env.shOk c).map .commandFailure
    cfg := cfg }

/-- JavaScript values reachable as fields of `config.instance`. -/
inductive JsVal where
  | str (s : String)
  | num (n : Nat)
  | arr (gs : List InstanceGroup)

/-- Dynamic member access on the `config.instance` object: only the keys
the configuration defines yield a value; any other key (in particular
`group`, read by `updateStop`) is `undefined`. -/
def InstanceConfig.jsField (ic : InstanceConfig) : String → Option JsVal
  | "groups" => some (.arr ic.groups)
  | "template" => some (.str ic.template)
  | "count" => some (.num ic.count)
  | "machine" => some (.str ic.machine)
  | _ => none

/-- Template-literal interpolation of a possibly-undefined JavaScript
value: `undefined` renders as the string `undefined`; an array renders
as its comma-joined elements, a plain object as `[object Object]`. -/
def jsInterpOpt : Option JsVal → String
  | none => "undefined"
  | some (.str s) => s
  | some (.num n) => jsNumToString n
  | some (.arr gs) => String.intercalate "," (gs.map fun _ => "[object Object]")

/-- `updateStop` (deploy.js lines 201-204): a single command whose
target is the interpolation of `config.instance.group`. -/
def updateStop (cfg : Config) (env : Env) : StepResult :=
  shStep (Cmd.rollingStopUpdate (jsInterpOpt (cfg.inst.jsField "group"))) cfg env

/-- The full command string `updateStop` passes to `sh`, with the
template literal's backslash line continuation resolved (the newline is
elided, the second line's leading spaces remain). -/
def updateStopCmdString (cfg : Config) : String :=
  "gcloud compute instance-groups managed rolling-action     stop-proactive-update "
    ++ jsInterpOpt (cfg.inst.jsField "group")

/-- `packagerInstanceTemplateCreate` (run in the packager working
directory, without the network tags and scopes of the main variant). -/
def packagerInstanceTemplateCreate (cfg : Config) (env : Env) : StepResult :=
  shStep
    (Cmd.templateCreate cfg.packager.inst.template cfg.packager.image.current
      cfg.packager.inst.machine none none (some cfg.packager.opts.workingDir))
    cfg env

/-- `packagerImageUpload`. -/
def packagerImageUpload (cfg : Config) (env : Env) : StepResult :=
  shStep (Cmd.buildsSubmit cfg.packager.image.current (some cfg.packager.opts.workingDir))
    cfg env

/-- `packagerUpdateStart`: like `updateStart` but over
`config.packager.instance.groups`, with `--min-ready 1m` and the
packager working directory. -/
def packagerUpdateStart (cfg : Config) (env : Env) : StepResult :=
  let cs := cfg.packager.inst.groups.map fun g =>
    Cmd.rollingStartUpdate g.name cfg.packager.inst.template g.zone "1m"
      (some cfg.packager.opts.workingDir)
  { cmds := cs
    err := (cs.find? fun c => !env.shOk c).map .commandFailure
    cfg := cfg }

/-- The named tasks deploy.js exports (and the two private locals used
only inside composites are among them too, since every composite step
is itself exported). -/
inductive StepName where
  | verifyTag
  | gcloudSetup
  | imageBuild
  | imageRunLocal
  | imageUpload
  | imageList
  | instanceTemplateCreate
  | updateStart
  | updateStatus
  | updateStop
  | packagerImageUpload
  | packagerInstanceTemplateCreate
  | packagerUpdateStart
deriving DecidableEq

/-- Dispatch a step name to the task it names. -/
def runStep : StepName → Config → Env → StepResult
  | .verifyTag => verifyTag
  | .gcloudSetup => gcloudSetup
  | .imageBuild => imageBuild
  | .imageRunLocal => imageRunLocal
  | .imageUpload => imageUpload
  | .imageList => imageList
  | .instanceTemplateCreate => instanceTemplateCreate
  | .updateStart => updateStart
  | .updateStatus => updateStatus
  | .updateStop => updateStop
  | .packagerImageUpload => packagerImageUpload
  | .packagerInstanceTemplateCreate => packagerInstanceTemplateCreate
  | .packagerUpdateStart => packagerUpdateStart

/-- gulp's `series`: run the steps in order, stop at the first error,
threading the configuration through. -/
def runSeries : List StepName → Config → Env → StepResult
  | [], cfg, _ => { cmds := [], err := none, cfg := cfg }
  | n :: rest, cfg, env =>
    let r := runStep n cfg env
    match r.err with
    | some e => { cmds := r.cmds, err := some e, cfg := r.cfg }
    | none =>
      let r2 := runSeries rest r.cfg env
      { cmds := r.cmds ++ r2.cmds, err := r2.err, cfg := r2.cfg }

/-- `exports.deploy = series(verifyTag, imageUpload,
instanceTemplateCreate, updateStart)` (deploy.js line 244). -/
def deploySteps : List StepName :=
  [.verifyTag, .imageUpload, .instanceTemplateCreate, .updateStart]

/-- `exports.packagerDeploy = series(packagerImageUpload,
packagerInstanceTemplateCreate, packagerUpdateStart)` (lines 250-254). -/
def packagerDeploySteps : List StepName :=
  [.packagerImageUpload, .packagerInstanceTemplateCreate, .packagerUpdateStart]

/-- Running the `deploy` composite. -/
def deployRun (cfg : Config) (env : Env) : StepResult :=
  runSeries deploySteps cfg env

/-- Running the `packagerDeploy` composite. -/
def packagerDeployRun (cfg : Config) (env : Env) : StepResult :=
  runSeries packagerDeploySteps cfg env

/-- The preview descriptor consumed by the code-preview template:
rendering mode (a string compared against `none`, `inline`,
`top-frame`, `side-frame`), source document, target URL, numeric index
namespacing per-widget client state, optional orientation, and the
playground-link flag. -/
structure Preview where
  mode : String
  source : String
  url : String
  index : Nat
  orientation : Option String
  playground : Bool

/-- The top-level pieces of markup code-preview.j2 can emit, in source
order, each carrying the template expressions it interpolates. -/
inductive Block where
  | wrapperOpen (cls : String)
  | inlinePreview (renderedSource : String)
  | topFramePreview (index : Nat) (url : String) (initialOrientation : String)
  | contentBlock (c : String)
  | sideFramePreview (index : Nat) (url : String)
  | wrapperClose
  | playgroundLink (url : String)
deriving DecidableEq

/-- Rendering of code-preview.j2 as the list of emitted blocks: the
wrapper `div.ap-o-code-preview` opens unless the mode is `none`
(line 1), then the inline block (line 5), the top-frame block
(line 11, with the orientation defaulting to `landscape`), the content
(line 71), the side-frame block (line 73), the wrapper close
(line 135), and the playground link when flagged (line 139). -/
def renderCodePreview (p : Preview) (content : String) : List Block :=
  (if p.mode ≠ "none" then
    [Block.wrapperOpen ("ap-o-code-preview " ++ (if p.mode ≠ "none" then p.mode else ""))]
  else []) ++
  (if p.mode = "inline" then [Block.inlinePreview p.source] else []) ++
  (if p.mode = "top-frame" then
    [Block.topFramePreview p.index p.url (jsOr p.orientation "landscape")]
  else []) ++
  [Block.contentBlock content] ++
  (if p.mode = "side-frame" then [Block.sideFramePreview p.index p.url] else []) ++
  (if p.mode ≠ "none" then [Block.wrapperClose] else []) ++
  (if p.playground then [Block.playgroundLink p.url] else [])

/-- Is this block part of the wrapping container (the
`div.ap-o-code-preview` element)? -/
def Block.isWrapper : Block → Bool
  | .wrapperOpen _ => true
  | .wrapperClose => true
  | _ => false

/-- Is this the inline-mode preview block? -/
def Block.isInlineBlock : Block → Bool
  | .inlinePreview _ => true
  | _ => false

/-- Is this the top-frame-mode preview block? -/
def Block.isTopFrameBlock : Block → Bool
  | .topFramePreview _ _ _ => true
  | _ => false

/-- Is this the side-frame-mode preview block? -/
def Block.isSideFrameBlock : Block → Bool
  | .sideFramePreview _ _ => true
  | _ => false

/-- Decimal parse of a character list (left inverse of `toDecimal`,
used to prove the rendering injective). -/
def ofDecimalChars (l : List Char) : Nat :=
  l.foldl (fun acc c => acc * 10 + (c.toNat - 48)) 0

/-- Does `t` occur as a contiguous run inside `s` (character lists)? -/
def charsContains (t : List Char) : List Char → Bool
  | [] => t.isEmpty
  | c :: s2 => t.isPrefixOf (c :: s2) || charsContains t s2

/-- Does the string `t` occur as a substring of `s`? -/
def strContainsB (s t : String) : Bool :=
  charsContains t.data s.data

/-- Modelled from the spec: the packager-targeted analogue of each main
deploy step ("`packagerDeploy` is the analogous composite for the
secondary service").  The code defines packager analogues only for the
upload, template-create and update-start steps; no packager analogue of
`verifyTag` (or of any other main task) exists in deploy.js. -/
def stepAnalogue : StepName → Option StepName
  | .imageUpload => some .packagerImageUpload
  | .instanceTemplateCreate => some .packagerInstanceTemplateCreate
  | .updateStart => some .packagerUpdateStart
  | _ => none

theorem toDecimalAux_congr : ∀ f1 f2 n : Nat, n < f1 → n < f2 →
    toDecimalAux f1 n = toDecimalAux f2 n := by
  intro f1
  induction f1 with
  | zero => intro f2 n h1 _; omega
  | succ g1 ih =>
    intro f2 n h1 h2
    cases f2 with
    | zero => omega
    | succ g2 =>
      simp only [toDecimalAux]
      by_cases h10 : n < 10
      · simp [h10]
      · simp only [h10, if_false]
        have hd1 : n / 10 < g1 := by omega
        have hd2 : n / 10 < g2 := by omega
        rw [ih g2 (n / 10) hd1 hd2]

theorem toDecimal_of_lt {n : Nat} (h : n < 10) : toDecimal n = [Nat.digitChar n] := by
  simp [toDecimal, toDecimalAux, h]

theorem toDecimal_of_ge {n : Nat} (h : 10 ≤ n) :
    toDecimal n = toDecimal (n / 10) ++ [Nat.digitChar (n % 10)] := by
  have h1 : ¬ n < 10 := by omega
  simp only [toDecimal, toDecimalAux, h1, if_false]
  rw [toDecimalAux_congr n (n / 10 + 1) (n / 10) (by omega) (by omega)]
  simp only [toDecimalAux]

theorem digitChar_toNat_sub : ∀ d : Nat, d < 10 → (Nat.digitChar d).toNat - 48 = d := by
  decide

theorem ofDecimalChars_append_singleton (l : List Char) (c : Char) :
    ofDecimalChars (l ++ [c]) = ofDecimalChars l * 10 + (c.toNat - 48) := by
  simp [ofDecimalChars, List.foldl_append]

theorem ofDecimalChars_toDecimal (n : Nat) : ofDecimalChars (toDecimal n) = n := by
  induction n using Nat.strong_induction_on with
  | _ n ih =>
    by_cases h : n < 10
    · rw [toDecimal_of_lt h]
      simp [ofDecimalChars, digitChar_toNat_sub n h]
    · rw [toDecimal_of_ge (by omega), ofDecimalChars_append_singleton,
        ih (n / 10) (by omega), digitChar_toNat_sub (n % 10) (by omega)]
      omega

theorem toDecimal_injective : Function.Injective toDecimal := by
  intro m n h
  rw [← ofDecimalChars_toDecimal m, ← ofDecimalChars_toDecimal n, h]

theorem jsNumToString_injective : Function.Injective jsNumToString := by
  intro m n h
  exact toDecimal_injective (List.asString_inj.mp h)

theorem toDecimal_ne_nil (n : Nat) : toDecimal n ≠ [] := by
  by_cases h : n < 10
  · rw [toDecimal_of_lt h]; simp
  · rw [toDecimal_of_ge (by omega)]; simp

theorem string_eq_of_data_eq {s t : String} (h : s.data = t.data) : s = t := by
  cases s; cases t; exact congrArg String.mk h

theorem string_append_left_cancel {g x y : String} (h : g ++ x = g ++ y) : x = y := by
  have hd := congrArg String.data h
  rw [String.data_append, String.data_append] at hd
  exact string_eq_of_data_eq (List.append_cancel_left hd)

theorem runStep_cfg (n : StepName) (cfg : Config) (env : Env) :
    (runStep n cfg env).cfg = cfg := by
  cases n <;>
    simp only [runStep, verifyTag, gcloudSetup, imageBuild, imageRunLocal,
      imageUpload, imageList, instanceTemplateCreate, updateStart, updateStatus,
      updateStop, packagerImageUpload, packagerInstanceTemplateCreate,
      packagerUpdateStart, shStep] <;>
    (repeat' split) <;> rfl

theorem runSeries_cons (n : StepName) (rest : List StepName) (cfg : Config) (env : Env) :
    runSeries (n :: rest) cfg env =
      match (runStep n cfg env).err with
      | some e =>
          { cmds := (runStep n cfg env).cmds, err := some e,
            cfg := (runStep n cfg env).cfg }
      | none =>
          { cmds := (runStep n cfg env).cmds ++ (runSeries rest cfg env).cmds,
            err := (runSeries rest cfg env).err,
            cfg := (runSeries rest cfg env).cfg } := by
  simp only [runSeries, runStep_cfg]

/-- Claim C1: `verifyTag` raises an error exactly when the tag list returned
by the registry query contains the candidate tag `config.tag`; in the
collision case the error is the explicit tag-collision error, a different
constructor from the generic command failure; when the candidate tag is
absent, `verifyTag` completes without raising. -/
theorem c1_verifyTag_collision (cfg : Config) (env : Env)
    (hok : env.shOk (Cmd.listTags cfg.image.name) = true) :
    ((verifyTag cfg env).err ≠ none ↔ cfg.tag ∈ env.registryTags)
    ∧ (cfg.tag ∈ env.registryTags →
        (verifyTag cfg env).err = some (DeployError.tagCollision cfg.tag))
    ∧ (cfg.tag ∉ env.registryTags → (verifyTag cfg env).err = none)
    ∧ ∀ t c, DeployError.tagCollision t ≠ DeployError.commandFailure c := by
  have hne : ∀ t c, DeployError.tagCollision t ≠ DeployError.commandFailure c :=
    fun t c h => DeployError.noConfusion h
  by_cases hm : cfg.tag ∈ env.registryTags <;>
    simp [verifyTag, hok, hm, hne, List.elem_iff]

theorem c1_verifyTag_collision_witness :
    (verifyTag (mkConfig (some "abc") none "v" 7 "/repo")
        { registryTags := ["abc"], shOk := fun _ => true }).err =
      some (DeployError.tagCollision "abc") := by
  have h := c1_verifyTag_collision (mkConfig (some "abc") none "v" 7 "/repo")
    { registryTags := ["abc"], shOk := fun _ => true } rfl
  exact h.2.1 (by decide)

/-- Claim C2: the `deploy` composite consists of exactly the four steps
`verifyTag`, `imageUpload`, `instanceTemplateCreate`, `updateStart` in
that order; when the earlier steps succeed its run issues their commands
in that order, and when `verifyTag` raises, the run stops with its error
and none of the three later steps executes (no later command is issued). -/
theorem c2_deploy_sequence (cfg : Config) (env : Env) :
    deploySteps = [.verifyTag, .imageUpload, .instanceTemplateCreate, .updateStart]
    ∧ ((verifyTag cfg env).err = none → (imageUpload cfg env).err = none →
        (instanceTemplateCreate cfg env).err = none →
        deployRun cfg env =
          { cmds := (verifyTag cfg env).cmds ++ ((imageUpload cfg env).cmds
              ++ ((instanceTemplateCreate cfg env).cmds ++ (updateStart cfg env).cmds))
            err := (updateStart cfg env).err
            cfg := cfg })
    ∧ (∀ e, (verifyTag cfg env).err = some e →
        deployRun cfg env =
          { cmds := (verifyTag cfg env).cmds, err := some e, cfg := cfg }) := by
  refine ⟨rfl, ?_, ?_⟩
  · intro h1 h2 h3
    have h5 := runStep_cfg .updateStart cfg env
    simp only [runStep] at h5
    simp only [deployRun, deploySteps, runSeries_cons, runStep, h1, h2, h3]
    cases h4 : (updateStart cfg env).err <;>
      simp [runSeries, h4, h5, List.append_assoc]
  · intro e h1
    have hc := runStep_cfg .verifyTag cfg env
    simp only [runStep] at hc
    simp only [deployRun, deploySteps, runSeries_cons, runStep, h1, hc]

theorem c2_deploy_sequence_witness :
    (deployRun (mkConfig (some "abc") none "v" 7 "/repo")
        { registryTags := [], shOk := fun _ => true }).err = none
    ∧ (deployRun (mkConfig (some "abc") none "v" 7 "/repo")
        { registryTags := [], shOk := fun _ => true }).cmds.length = 5
    ∧ deployRun (mkConfig (some "abc") none "v" 7 "/repo")
        { registryTags := ["abc"], shOk := fun _ => true } =
      { cmds := [Cmd.listTags (mkConfig (some "abc") none "v" 7 "/repo").image.name]
        err := some (DeployError.tagCollision "abc")
        cfg := mkConfig (some "abc") none "v" 7 "/repo" } := by
  have hOk := c2_deploy_sequence (mkConfig (some "abc") none "v" 7 "/repo")
    { registryTags := [], shOk := fun _ => true }
  have hHit := c2_deploy_sequence (mkConfig (some "abc") none "v" 7 "/repo")
    { registryTags := ["abc"], shOk := fun _ => true }
  refine ⟨?_, ?_, ?_⟩
  · rw [hOk.2.1 (by decide) (by decide) (by decide)]
    decide
  · rw [hOk.2.1 (by decide) (by decide) (by decide)]
    decide
  · exact hHit.2.2 (DeployError.tagCollision "abc") (by decide)

theorem c3_image_current_counterexample :
    ¬ ((mkConfig (some "") (some "p") "sha" 5 "/repo").image.current =
        "gcr.io/" ++ "p" ++ "/" ++ "amp-dev" ++ ":" ++ "") := by
  decide

/-- Claim C3 (amended): for every non-empty explicitly supplied project id P
and non-empty explicitly supplied tag override T, the computed
`config.image.current` equals `gcr.io/` ++ P ++ `/` ++ `amp-dev` ++ `:` ++ T.
(The unamended claim fails for the empty override strings, which JavaScript
`||` treats as falsy, falling back to the defaults.) -/
theorem c3_image_current_amended (P T gitVersion : String) (timestamp : Nat)
    (root : String) (hP : P ≠ "") (hT : T ≠ "") :
    (mkConfig (some T) (some P) gitVersion timestamp root).image.current =
      "gcr.io/" ++ P ++ "/" ++ "amp-dev" ++ ":" ++ T := by
  simp [mkConfig, mkTag, mkProjectId, jsOr, hP, hT, PFX]

theorem c3_image_current_amended_witness :
    ("p" : String) ≠ "" ∧ ("t" : String) ≠ "" ∧
    (mkConfig (some "t") (some "p") "sha" 5 "/repo").image.current =
      "gcr.io/" ++ "p" ++ "/" ++ "amp-dev" ++ ":" ++ "t" :=
  ⟨by decide, by decide,
    c3_image_current_amended "p" "t" "sha" 5 "/repo" (by decide) (by decide)⟩

/-- Claim C4: one invocation of `updateStart` issues exactly one
rolling-update command per configured instance group — the command list
corresponds one-to-one, in order, to `config.instance.groups` — and each
command's `--zone` argument equals the zone of the group its name refers
to (and its template argument is the configured instance template). -/
theorem c4_updateStart_fanout (cfg : Config) (env : Env) :
    (updateStart cfg env).cmds.length = cfg.inst.groups.length
    ∧ List.Forall₂
        (fun c g => c.groupArg = some g.name ∧ c.zoneArg = some g.zone
          ∧ c.templateArg = some cfg.inst.template)
        (updateStart cfg env).cmds cfg.inst.groups := by
  constructor
  · simp [updateStart]
  · simp only [updateStart]
    have key : ∀ gs : List InstanceGroup,
        List.Forall₂
          (fun c g => c.groupArg = some g.name ∧ c.zoneArg = some g.zone
            ∧ c.templateArg = some cfg.inst.template)
          (gs.map fun g =>
            Cmd.rollingStartUpdate g.name cfg.inst.template g.zone "4m" none) gs := by
      intro gs
      induction gs with
      | nil => simp
      | cons g rest ih =>
        simp [Cmd.groupArg, Cmd.zoneArg, Cmd.templateArg, ih]
    exact key cfg.inst.groups

theorem runSeries_cfg : ∀ (steps : List StepName) (cfg : Config) (env : Env),
    (runSeries steps cfg env).cfg = cfg := by
  intro steps
  induction steps with
  | nil => intro cfg env; rfl
  | cons n rest ih =>
    intro cfg env
    rw [runSeries_cons]
    cases h : (runStep n cfg env).err <;> simp [h, runStep_cfg, ih]

theorem dash_not_mem_toDecimal (n : Nat) : ('-' : Char) ∉ toDecimal n := by
  induction n using Nat.strong_induction_on with
  | _ n ih =>
    by_cases h : n < 10
    · rw [toDecimal_of_lt h]
      have hdig : ∀ d, d < 10 → Nat.digitChar d ≠ '-' := by decide
      simp only [List.mem_singleton]
      exact fun hc => hdig n h hc.symm
    · rw [toDecimal_of_ge (by omega)]
      intro hc
      rcases List.mem_append.mp hc with hc1 | hc2
      · exact ih (n / 10) (by omega) hc1
      · have hdig : ∀ d, d < 10 → Nat.digitChar d ≠ '-' := by decide
        simp at hc2
        exact hdig (n % 10) (by omega) hc2.symm

theorem eq_of_append_sep {α : Type} (sep : α) :
    ∀ p1 p2 s1 s2 : List α, sep ∉ p1 → sep ∉ p2 →
      p1 ++ sep :: s1 = p2 ++ sep :: s2 → p1 = p2 ∧ s1 = s2 := by
  intro p1
  induction p1 with
  | nil =>
    intro p2 s1 s2 hn1 hn2 he
    cases p2 with
    | nil => simpa using he
    | cons d p2t =>
      simp at he
      exact absurd (he.1 ▸ List.mem_cons_self d p2t) hn2
  | cons c p1t ih =>
    intro p2 s1 s2 hn1 hn2 he
    cases p2 with
    | nil =>
      simp at he
      exact absurd (he.1 ▸ List.mem_cons_self c p1t) hn1
    | cons d p2t =>
      simp only [List.cons_append, List.cons.injEq] at he
      have hrec := ih p2t s1 s2 (fun hm => hn1 (List.mem_cons_of_mem c hm))
        (fun hm => hn2 (List.mem_cons_of_mem d hm)) he.2
      exact ⟨by rw [he.1, hrec.1], hrec.2⟩

/-- Claim C6: when no tag override is supplied, the computed tag is a
non-empty string, and any two invocations with distinct timestamps
compute distinct tags (whatever the two git version strings are: the
decimal timestamp is the dash-free suffix after the last dash). -/
theorem c6_generated_tag (g1 g2 : String) (t1 t2 : Nat) (h : t1 ≠ t2) :
    mkTag none g1 t1 ≠ "" ∧ mkTag none g1 t1 ≠ mkTag none g2 t2 := by
  have h1 : mkTag none g1 t1 = g1 ++ "-" ++ jsNumToString t1 := rfl
  have h2 : mkTag none g2 t2 = g2 ++ "-" ++ jsNumToString t2 := rfl
  constructor
  · intro he
    rw [h1] at he
    have hl := congrArg String.length he
    rw [String.length_append, String.length_append] at hl
    simp at hl
    exact absurd hl.1.2 (by decide)
  · intro he
    rw [h1, h2] at he
    have hd := congrArg String.data he
    simp only [String.data_append] at hd
    have hjs1 : (jsNumToString t1).data = toDecimal t1 := rfl
    have hjs2 : (jsNumToString t2).data = toDecimal t2 := rfl
    rw [hjs1, hjs2] at hd
    have hr := congrArg List.reverse hd
    simp only [List.reverse_append, List.reverse_cons, List.reverse_nil,
      List.nil_append, List.singleton_append, List.append_assoc,
      List.cons_append] at hr
    have hsep := eq_of_append_sep '-' (toDecimal t1).reverse (toDecimal t2).reverse
      g1.data.reverse g2.data.reverse
      (fun hm => dash_not_mem_toDecimal t1 (List.mem_reverse.mp hm))
      (fun hm => dash_not_mem_toDecimal t2 (List.mem_reverse.mp hm)) hr
    exact h (toDecimal_injective (List.reverse_injective hsep.1))

theorem c6_generated_tag_witness :
    (3 : Nat) ≠ 7
    ∧ mkTag none "v" 3 ≠ "" ∧ mkTag none "v" 3 ≠ mkTag none "w" 7 :=
  ⟨by decide, c6_generated_tag "v" "w" 3 7 (by decide)⟩

/-- Claim C7: `updateStop` reads `config.instance.group`, which is not a
field of the configuration (which defines the list `groups`); under the
total embedding the dynamic field access yields no value, the command
interpolates the JavaScript rendering `undefined`, and the command string
`updateStop` builds does not contain the name of any configured instance
group. -/
theorem c7_updateStop_undefined_group (tagArg projectArg : Option String)
    (gitVersion : String) (timestamp : Nat) (root : String) (env : Env) :
    (mkConfig tagArg projectArg gitVersion timestamp root).inst.jsField "group" = none
    ∧ (updateStop (mkConfig tagArg projectArg gitVersion timestamp root) env).cmds =
        [Cmd.rollingStopUpdate "undefined"]
    ∧ (mkConfig tagArg projectArg gitVersion timestamp root).inst.groups.all
        (fun gr =>
          !(strContainsB
            (updateStopCmdString (mkConfig tagArg projectArg gitVersion timestamp root))
            gr.name)) = true := by
  have hg : (mkConfig tagArg projectArg gitVersion timestamp root).inst.groups =
      [{ name := "ig-amp-dev-europe", zone := "europe-west2-c" },
       { name := "ig-amp-dev-zone2", zone := "us-east1-b" }] := rfl
  have hc : updateStopCmdString (mkConfig tagArg projectArg gitVersion timestamp root) =
      "gcloud compute instance-groups managed rolling-action     stop-proactive-update undefined" :=
    rfl
  refine ⟨rfl, rfl, ?_⟩
  rw [hg, hc]
  decide

/-- Claim C8 (counterexample): `packagerDeploy` does not run a
packager-targeted analogue of every `deploy` step: `deploy` has four
steps but `packagerDeploy` has three, with no analogue of `verifyTag`. -/
theorem c8_packagerDeploy_counterexample :
    ¬ (deploySteps.map stepAnalogue = packagerDeploySteps.map some) := by
  decide

/-- Claim C8 (amended): `packagerDeploy` runs the packager analogues of
the last three `deploy` steps (upload, template-create, update-start) in
the same relative order, but it omits any analogue of the `verifyTag`
step; when its first two steps succeed, its run issues their commands in
order. -/
theorem c8_packagerDeploy_amended (cfg : Config) (env : Env) :
    packagerDeploySteps = deploySteps.filterMap stepAnalogue
    ∧ stepAnalogue .verifyTag = none
    ∧ ((packagerImageUpload cfg env).err = none →
        (packagerInstanceTemplateCreate cfg env).err = none →
        packagerDeployRun cfg env =
          { cmds := (packagerImageUpload cfg env).cmds ++
              ((packagerInstanceTemplateCreate cfg env).cmds
                ++ (packagerUpdateStart cfg env).cmds)
            err := (packagerUpdateStart cfg env).err
            cfg := cfg }) := by
  refine ⟨by decide, rfl, ?_⟩
  intro h1 h2
  have h5 := runStep_cfg .packagerUpdateStart cfg env
  simp only [runStep] at h5
  simp only [packagerDeployRun, packagerDeploySteps, runSeries_cons, runStep, h1, h2]
  cases h4 : (packagerUpdateStart cfg env).err <;>
    simp [runSeries, h4, h5, List.append_assoc]

theorem c8_packagerDeploy_amended_witness :
    packagerDeploySteps = deploySteps.filterMap stepAnalogue
    ∧ packagerDeployRun (mkConfig (some "abc") none "v" 7 "/repo")
        { registryTags := [], shOk := fun _ => true } =
      { cmds := [Cmd.buildsSubmit
            (mkConfig (some "abc") none "v" 7 "/repo").packager.image.current
            (some (mkConfig (some "abc") none "v" 7 "/repo").packager.opts.workingDir),
          Cmd.templateCreate
            (mkConfig (some "abc") none "v" 7 "/repo").packager.inst.template
            (mkConfig (some "abc") none "v" 7 "/repo").packager.image.current
            "n1-standard-1" none none
            (some (mkConfig (some "abc") none "v" 7 "/repo").packager.opts.workingDir),
          Cmd.rollingStartUpdate "ig-amp-dev-packager"
            (mkConfig (some "abc") none "v" 7 "/repo").packager.inst.template
            "us-east1-b" "1m"
            (some (mkConfig (some "abc") none "v" 7 "/repo").packager.opts.workingDir)]
        err := none
        cfg := mkConfig (some "abc") none "v" 7 "/repo" } := by
  have h := c8_packagerDeploy_amended (mkConfig (some "abc") none "v" 7 "/repo")
    { registryTags := [], shOk := fun _ => true }
  refine ⟨h.1, ?_⟩
  rw [h.2.2 (by decide) (by decide)]
  decide

/-- Claim C9: the configuration is built once (`mkConfig`) from defaults
and commandline overrides; every exported task and both composites leave
it unchanged; and all tag-derived names (`image.current`,
`instance.template`, and their packager counterparts, as well as
`packager.tag`) embed the single computed tag. -/
theorem c9_config_immutable (n : StepName) (cfg : Config) (env : Env)
    (tagArg projectArg : Option String) (gitVersion : String) (timestamp : Nat)
    (root : String) :
    (runStep n cfg env).cfg = cfg
    ∧ (runSeries deploySteps cfg env).cfg = cfg
    ∧ (runSeries packagerDeploySteps cfg env).cfg = cfg
    ∧ (mkConfig tagArg projectArg gitVersion timestamp root).packager.tag =
        (mkConfig tagArg projectArg gitVersion timestamp root).tag
    ∧ (mkConfig tagArg projectArg gitVersion timestamp root).image.current =
        (mkConfig tagArg projectArg gitVersion timestamp root).image.name ++ ":" ++
          (mkConfig tagArg projectArg gitVersion timestamp root).tag
    ∧ (mkConfig tagArg projectArg gitVersion timestamp root).inst.template =
        "it-" ++ (mkConfig tagArg projectArg gitVersion timestamp root).pfx ++ "-" ++
          (mkConfig tagArg projectArg gitVersion timestamp root).tag
    ∧ (mkConfig tagArg projectArg gitVersion timestamp root).packager.image.current =
        (mkConfig tagArg projectArg gitVersion timestamp root).packager.image.name
          ++ ":" ++ (mkConfig tagArg projectArg gitVersion timestamp root).tag
    ∧ (mkConfig tagArg projectArg gitVersion timestamp root).packager.inst.template =
        "it-" ++ (mkConfig tagArg projectArg gitVersion timestamp root).packager.pfx
          ++ "-" ++ (mkConfig tagArg projectArg gitVersion timestamp root).tag :=
  ⟨runStep_cfg n cfg env, runSeries_cfg deploySteps cfg env,
    runSeries_cfg packagerDeploySteps cfg env, rfl, rfl, rfl, rfl, rfl⟩

theorem mem_ite_nil {α : Type} (x a : α) (c : Prop) [Decidable c] :
    (x ∈ if c then [a] else []) ↔ c ∧ x = a := by
  split <;> simp_all

/-- Claim C5: with mode `none` the rendered output contains neither the
wrapping `ap-o-code-preview` container nor any of the inline, top-frame
or side-frame blocks; with each of the modes `inline`, `top-frame`,
`side-frame` it contains exactly the block associated with that mode and
neither of the other two mode-specific blocks. -/
theorem c5_preview_modes (p : Preview) (content : String) :
    (p.mode = "none" →
      (renderCodePreview p content).countP Block.isWrapper = 0
      ∧ (renderCodePreview p content).countP Block.isInlineBlock = 0
      ∧ (renderCodePreview p content).countP Block.isTopFrameBlock = 0
      ∧ (renderCodePreview p content).countP Block.isSideFrameBlock = 0)
    ∧ (p.mode = "inline" →
      (renderCodePreview p content).countP Block.isInlineBlock = 1
      ∧ (renderCodePreview p content).countP Block.isTopFrameBlock = 0
      ∧ (renderCodePreview p content).countP Block.isSideFrameBlock = 0)
    ∧ (p.mode = "top-frame" →
      (renderCodePreview p content).countP Block.isTopFrameBlock = 1
      ∧ (renderCodePreview p content).countP Block.isInlineBlock = 0
      ∧ (renderCodePreview p content).countP Block.isSideFrameBlock = 0)
    ∧ (p.mode = "side-frame" →
      (renderCodePreview p content).countP Block.isSideFrameBlock = 1
      ∧ (renderCodePreview p content).countP Block.isInlineBlock = 0
      ∧ (renderCodePreview p content).countP Block.isTopFrameBlock = 0) := by
  refine ⟨?_, ?_, ?_, ?_⟩ <;> intro hm <;> cases hp : p.playground <;>
    simp [renderCodePreview, hm, hp, Block.isWrapper, Block.isInlineBlock,
      Block.isTopFrameBlock, Block.isSideFrameBlock]

theorem c5_preview_modes_witness :
    ((renderCodePreview
        { mode := "none", source := "s", url := "u", index := 0,
          orientation := none, playground := false } "c").countP Block.isWrapper = 0
      ∧ (renderCodePreview
        { mode := "none", source := "s", url := "u", index := 0,
          orientation := none, playground := false } "c").countP Block.isInlineBlock = 0
      ∧ (renderCodePreview
        { mode := "none", source := "s", url := "u", index := 0,
          orientation := none, playground := false } "c").countP Block.isTopFrameBlock = 0
      ∧ (renderCodePreview
        { mode := "none", source := "s", url := "u", index := 0,
          orientation := none, playground := false } "c").countP Block.isSideFrameBlock = 0)
    ∧ ((renderCodePreview
        { mode := "inline", source := "s", url := "u", index := 0,
          orientation := none, playground := false } "c").countP Block.isInlineBlock = 1)
    ∧ ((renderCodePreview
        { mode := "top-frame", source := "s", url := "u", index := 0,
          orientation := none, playground := false } "c").countP Block.isTopFrameBlock = 1)
    ∧ ((renderCodePreview
        { mode := "side-frame", source := "s", url := "u", index := 0,
          orientation := none, playground := false } "c").countP Block.isSideFrameBlock = 1) :=
  ⟨(c5_preview_modes
      { mode := "none", source := "s", url := "u", index := 0,
        orientation := none, playground := false } "c").1 rfl,
    ((c5_preview_modes
      { mode := "inline", source := "s", url := "u", index := 0,
        orientation := none, playground := false } "c").2.1 rfl).1,
    ((c5_preview_modes
      { mode := "top-frame", source := "s", url := "u", index := 0,
        orientation := none, playground := false } "c").2.2.1 rfl).1,
    ((c5_preview_modes
      { mode := "side-frame", source := "s", url := "u", index := 0,
        orientation := none, playground := false } "c").2.2.2 rfl).1⟩

/-- Claim C10: for every preview descriptor the rendered output contains
the content block, and it contains the playground link exactly when
`preview.playground` is set — both independent of the mode, in
particular also when the mode is `none`. -/
theorem c10_content_and_playground (p : Preview) (content : String) :
    Block.contentBlock content ∈ renderCodePreview p content
    ∧ (Block.playgroundLink p.url ∈ renderCodePreview p content ↔
        p.playground = true) := by
  cases hp : p.playground <;>
    simp [renderCodePreview, hp, mem_ite_nil, List.mem_append]
